import Mathlib

set_option linter.unusedVariables false
set_option linter.unnecessarySeqFocus false

/-!
Verification development for the bill-extraction core of the infocle-ledger
repository. The Python source in text_extractor.py and config.py is embedded
shallowly: pure helpers become Lean functions over character lists, the
stateful orchestrator becomes an explicit function of an environment record
describing collaborator behaviour, and the network side effects are tracked
as an explicit trace of calls.
-/

/-- JSON values as produced by the stdlib parser and built by the extractor. -/
inductive Json
  | null
  | bool (b : Bool)
  | num (q : Rat)
  | str (s : String)
  | arr (xs : List Json)
  | obj (kvs : List (String × Json))

/-- The opening brace character. -/
def lbrace : Char := Char.ofNat 123

/-- The closing brace character. -/
def rbrace : Char := Char.ofNat 125

/-- Index of the first occurrence of a character, as in the Python find method
(with none standing for the -1 result). -/
def find_char : List Char → Char → Option Nat
  | [], _ => none
  | a :: l, c => if a = c then some 0 else (find_char l c).map (fun i => i + 1)

/-- Index of the last occurrence of a character, as in the Python rfind method
(with none standing for the -1 result). -/
def rfind_char (l : List Char) (c : Char) : Option Nat :=
  (find_char l.reverse c).map (fun i => l.length - 1 - i)

/-- Embedding of TextExtractor._coerce_to_json on character lists: trim to the
span from the first opening brace to the last closing brace when the latter
comes strictly later; otherwise return the input unchanged. -/
def coerce_chars (t : List Char) : List Char :=
  match find_char t lbrace, rfind_char t rbrace with
  | some s, some e => if s < e then (t.drop s).take (e - s + 1) else t
  | _, _ => t

/-- Embedding of TextExtractor._coerce_to_json on strings. -/
def coerce_to_json (s : String) : String := String.mk (coerce_chars s.data)

/-- Embedding of the Python str.strip method: drop whitespace from both ends. -/
def strip_chars (s : List Char) : List Char :=
  ((s.dropWhile Char.isWhitespace).reverse.dropWhile Char.isWhitespace).reverse

/-- String-level strip. -/
def pyStrip (s : String) : String := String.mk (strip_chars s.data)

/-- Embedding of the Python str.lower method (ASCII case folding). -/
def lower (s : String) : String := String.mk (s.data.map Char.toLower)

/-- Embedding of the Python slice s[:n]: the first n characters. -/
def truncate (s : String) (n : Nat) : String := String.mk (s.data.take n)

/-- The scanning loop of os.path.splitext: is there a character other than a
dot among the fuel positions starting at position i (the scan stops at the
dot index, so fuel is the distance from i to that index)? -/
def scan_nondot (p : List Char) (i : Nat) : Nat → Bool
  | 0 => false
  | fuel + 1 => if p[i]? = some '.' then scan_nondot p (i + 1) fuel else true

/-- Embedding of the extension component of os.path.splitext (posix rules):
the suffix from the last dot, provided that dot lies after the last separator
and the leading run of the file name is not all dots. -/
def splitext_ext_chars (p : List Char) : List Char :=
  let sepIndex : Int := match rfind_char p '/' with | none => -1 | some i => (i : Int)
  let dotIndex : Int := match rfind_char p '.' with | none => -1 | some i => (i : Int)
  if sepIndex < dotIndex then
    if scan_nondot p (sepIndex + 1).toNat (dotIndex.toNat - (sepIndex + 1).toNat) then
      p.drop dotIndex.toNat
    else []
  else []

/-- Extension of a path as a string. -/
def splitext_ext (p : String) : String := String.mk (splitext_ext_chars p.data)

/-- The extension the extractor dispatches on: splitext of the lower-cased
path, as in the source line computing ext from file_path.lower(). -/
def ext_of (path : String) : String := splitext_ext (lower path)

/-- Embedding of os.path.basename (posix rules). -/
def basename_chars (p : List Char) : List Char :=
  match rfind_char p '/' with
  | none => p
  | some i => p.drop (i + 1)

/-- String-level basename. -/
def basename (p : String) : String := String.mk (basename_chars p.data)

/-- The supported extension set from TextExtractor.__init__. -/
def supported_extensions : List String :=
  [".pdf", ".txt", ".jpg", ".jpeg", ".png", ".gif", ".bmp", ".tiff"]

/-- Embedding of TextExtractor.can_extract. -/
def can_extract (path : String) : Bool :=
  supported_extensions.contains (ext_of path)

/-- Embedding of the Python dict.setdefault method on insertion-ordered
association lists: leave the map unchanged when the key is present, append
the binding otherwise. -/
def setdefault (kvs : List (String × Json)) (k : String) (v : Json) :
    List (String × Json) :=
  match List.lookup k kvs with
  | some _ => kvs
  | none => kvs ++ [(k, v)]

/-! ## JSON equality -/

mutual

/-- Boolean equality of JSON values. -/
def jeqb : Json → Json → Bool
  | Json.null, Json.null => true
  | Json.bool a, Json.bool b => a == b
  | Json.num a, Json.num b => a == b
  | Json.str a, Json.str b => a == b
  | Json.arr as, Json.arr bs => jeqb_list as bs
  | Json.obj as, Json.obj bs => jeqb_obj as bs
  | _, _ => false

/-- Boolean equality of JSON arrays. -/
def jeqb_list : List Json → List Json → Bool
  | [], [] => true
  | a :: as, b :: bs => jeqb a b && jeqb_list as bs
  | _, _ => false

/-- Boolean equality of JSON objects. -/
def jeqb_obj : List (String × Json) → List (String × Json) → Bool
  | [], [] => true
  | (k, a) :: as, (l, b) :: bs => k == l && jeqb a b && jeqb_obj as bs
  | _, _ => false

end

/-! ## Schema builder (lines 97 to 131 of text_extractor.py) -/

/-- The category property schema: a union of null and an enum over the
supplied categories when they are non-empty, a string-or-null type union
otherwise. -/
def category_prop (categories : List String) : Json :=
  match categories with
  | [] => Json.obj [("type", Json.arr [Json.str ("string"), Json.str ("null")])]
  | _ :: _ =>
    Json.obj [("anyOf", Json.arr [
      Json.obj [("type", Json.str ("null"))],
      Json.obj [("type", Json.str ("string")),
                ("enum", Json.arr (categories.map Json.str))]])]

/-- The LineItem property map. -/
def item_properties (categories : List String) : List (String × Json) :=
  [("description", Json.obj [("type", Json.str ("string"))]),
   ("quantity", Json.obj [("type", Json.arr [Json.str ("number"), Json.str ("null")])]),
   ("unit_price", Json.obj [("type", Json.arr [Json.str ("number"), Json.str ("null")])]),
   ("price", Json.obj [("type", Json.str ("number"))]),
   ("category", category_prop categories)]

/-- The LineItem required list: all declared keys. -/
def item_required (categories : List String) : List String :=
  (item_properties categories).map Prod.fst

/-- The LineItem object schema, inlined as the array element schema. -/
def line_item_schema (categories : List String) : Json :=
  Json.obj [("type", Json.str ("object")),
            ("additionalProperties", Json.bool false),
            ("properties", Json.obj (item_properties categories)),
            ("required", Json.arr ((item_required categories).map Json.str))]

/-- The Bill property map. -/
def top_properties (categories : List String) : List (String × Json) :=
  [("bill_number", Json.obj [("type", Json.arr [Json.str ("string"), Json.str ("null")])]),
   ("items", Json.obj [("type", Json.str ("array")),
                       ("items", line_item_schema categories)]),
   ("source_filename", Json.obj [("type", Json.str ("string"))])]

/-- The Bill required list: all declared keys. -/
def top_required (categories : List String) : List String :=
  (top_properties categories).map Prod.fst

/-- The full strict Bill schema sent to the generation request. -/
def bill_schema (categories : List String) : Json :=
  Json.obj [("type", Json.str ("object")),
            ("additionalProperties", Json.bool false),
            ("properties", Json.obj (top_properties categories)),
            ("required", Json.arr ((top_required categories).map Json.str))]

/-! ## A small JSON Schema acceptance semantics, covering the scalar schema
constructs the builder uses for the category field: a type name, a type name
list, an enum restriction, and a one-level anyOf union. -/

/-- Does a primitive type name match a JSON value? -/
def typeNameMatches (t : String) (v : Json) : Bool :=
  match v with
  | Json.null => t == "null"
  | Json.bool _ => t == "boolean"
  | Json.num _ => t == "number"
  | Json.str _ => t == "string"
  | Json.arr _ => t == "array"
  | Json.obj _ => t == "object"

/-- Does the value of a type field (a name or a list of names) match? -/
def typeFieldMatches (tval : Json) (v : Json) : Bool :=
  match tval with
  | Json.str t => typeNameMatches t v
  | Json.arr ts =>
    ts.any fun tj => match tj with | Json.str t => typeNameMatches t v | _ => false
  | _ => false

/-- Does the enum field of a schema object, when present, allow the value? -/
def enum_allows (kvs : List (String × Json)) (v : Json) : Bool :=
  match List.lookup ("enum") kvs with
  | some (Json.arr es) => es.any (fun e => jeqb e v)
  | some _ => false
  | none => true

/-- Acceptance for a scalar schema object without anyOf. -/
def scalar_accepts_basic (s : Json) (v : Json) : Bool :=
  match s with
  | Json.obj kvs =>
    (match List.lookup ("type") kvs with
     | some tval => typeFieldMatches tval v
     | none => true) && enum_allows kvs v
  | _ => false

/-- Acceptance for a scalar schema object, resolving one level of anyOf. -/
def scalar_accepts (s : Json) (v : Json) : Bool :=
  match s with
  | Json.obj kvs =>
    match List.lookup ("anyOf") kvs with
    | some (Json.arr ss) => ss.any fun alt => scalar_accepts_basic alt v
    | some _ => false
    | none => scalar_accepts_basic s v
  | _ => false

/-- The field map of a JSON object (empty for non-objects). -/
def obj_fields : Json → List (String × Json)
  | Json.obj kvs => kvs
  | _ => []

/-- The names in the required list of a schema object. -/
def required_names (s : Json) : Option (List String) :=
  match List.lookup ("required") (obj_fields s) with
  | some (Json.arr es) =>
    some (es.filterMap fun e => match e with | Json.str n => some n | _ => none)
  | _ => none

/-- The declared property names of a schema object. -/
def property_names (s : Json) : Option (List String) :=
  match List.lookup ("properties") (obj_fields s) with
  | some (Json.obj ps) => some (ps.map Prod.fst)
  | _ => none

/-! ## The orchestrator embedding

The extractor talks to a file system, a configuration store and a remote
service; their behaviour is a parameter of the embedding. Python exceptions
are modelled with Except, the exception payload being the message text, and
every network request actually issued is recorded in a trace. -/

/-- A Python exception, reduced to its message text. -/
abbrev PyErr := String

/-- One network request issued against the remote API. -/
inductive NetCall
  | upload (path : String)
  | generate
deriving DecidableEq

/-- The collaborator behaviour visible to one extraction call: file system,
configuration and remote service, plus the stdlib JSON parser. -/
structure Env where
  fileExists : String → Bool
  readTxt : String → Except PyErr String
  openBin : String → Except PyErr Unit
  apiKey : Option String
  uploadOutcome : String → Except PyErr String
  generateOutcome : Except PyErr (Option String)
  loads : String → Option Json

/-- The result pair returned to the caller: (True, pretty-printed bill) is
modelled with the bill object itself standing for its serialization. -/
inductive PyResult
  | success (bill : Json)
  | failure (msg : String)

/-- Embedding of TextExtractor._headers: raise when no key is configured,
otherwise produce the authorization header. -/
def headers (env : Env) : Except PyErr (List (String × String)) :=
  match env.apiKey with
  | none => Except.error ("OpenAI API key not configured")
  | some k => Except.ok [("Authorization", ("Bearer ") ++ k)]

/-- Embedding of TextExtractor._upload_file: open the file, evaluate the
headers (both before any request is issued), then post the upload. -/
def upload_file (env : Env) (path : String) : Except PyErr String × List NetCall :=
  match env.openBin path with
  | Except.error e => (Except.error e, [])
  | Except.ok _ =>
    match headers env with
    | Except.error e => (Except.error e, [])
    | Except.ok _ =>
      match env.uploadOutcome path with
      | Except.error e => (Except.error e, [NetCall.upload path])
      | Except.ok fid => (Except.ok fid, [NetCall.upload path])

/-- Embedding of TextExtractor._responses_post followed by the output-text
extraction of step 6: the headers are evaluated before the request, and the
response either carries a text (some), carries none (the unexpected-format
branch), or the call raises. -/
def responses_post (env : Env) : Except PyErr (Option String) × List NetCall :=
  match headers env with
  | Except.error e => (Except.error e, [])
  | Except.ok _ =>
    match env.generateOutcome with
    | Except.error e => (Except.error e, [NetCall.generate])
    | Except.ok t => (Except.ok t, [NetCall.generate])

/-- The parse-then-repair step of lines 172 to 176: a direct parse, and on
failure a single retry on the brace-trimmed text. -/
def normalize_json_text (loads : String → Option Json) (t : String) : Option Json :=
  match loads t with
  | some o => some o
  | none => loads (coerce_to_json t)

/-- Embedding of TextExtractor._extract_bill_via_responses_api: upload,
build the prompt and the strict schema, post the generation request, parse
or repair the response text, and inject the source file name when absent. -/
def extract_bill_via_responses_api (env : Env) (path : String)
    (categories : List String) : Except PyErr PyResult × List NetCall :=
  match upload_file env path with
  | (Except.error e, tr) => (Except.error e, tr)
  | (Except.ok _fid, tr1) =>
    let schema := bill_schema categories
    match responses_post env with
    | (Except.error e, tr2) => (Except.error e, tr1 ++ tr2)
    | (Except.ok none, tr2) =>
      (Except.ok (PyResult.failure ("Unexpected API response format")), tr1 ++ tr2)
    | (Except.ok (some jsonText), tr2) =>
      match normalize_json_text env.loads jsonText with
      | none => (Except.error ("json.decoder.JSONDecodeError"), tr1 ++ tr2)
      | some (Json.obj kvs) =>
        (Except.ok (PyResult.success (Json.obj
           (setdefault kvs ("source_filename") (Json.str (basename path))))),
         tr1 ++ tr2)
      | some _ => (Except.error ("AttributeError: setdefault"), tr1 ++ tr2)

/-- Embedding of TextExtractor._extract_from_txt: read the file (either
decoding may raise an OSError, modelled by the environment) and strip. -/
def extract_from_txt (env : Env) (path : String) : Except PyErr String :=
  match env.readTxt path with
  | Except.error e => Except.error e
  | Except.ok s => Except.ok (pyStrip s)

/-- Embedding of TextExtractor._wrap_plain_text_as_bill. -/
def wrap_plain_text_as_bill (content : String) (categories : List String) : Json :=
  Json.obj [
    ("bill_number", Json.null),
    ("items", Json.arr [Json.obj [
      ("description", Json.str (truncate content 2000)),
      ("quantity", Json.null),
      ("unit_price", Json.null),
      ("price", Json.num 0),
      ("category", match categories with | [] => Json.null | c :: _ => Json.str c)]]),
    ("source_filename", Json.str ("text-file"))]

/-- The body of the try block of extract_text: dispatch on the extension of
the lower-cased path, the txt branch never touching the network. -/
def extract_text_body (env : Env) (path : String) (categories : List String) :
    Except PyErr PyResult × List NetCall :=
  if ext_of path = (".txt") then
    match extract_from_txt env path with
    | Except.error e => (Except.error e, [])
    | Except.ok content =>
      (Except.ok (PyResult.success (wrap_plain_text_as_bill content categories)), [])
  else extract_bill_via_responses_api env path categories

/-- The exception boundary of extract_text: any exception escaping the body
is converted into a failure result carrying the message text. -/
def catch_to_result (r : Except PyErr PyResult × List NetCall) :
    PyResult × List NetCall :=
  match r with
  | (Except.ok v, tr) => (v, tr)
  | (Except.error e, tr) => (PyResult.failure (("Error extracting text: ") ++ e), tr)

/-- Embedding of TextExtractor.extract_text: the existence precondition,
then the guarded dispatch body. -/
def extract_text (env : Env) (path : String) (categories : List String) :
    PyResult × List NetCall :=
  if env.fileExists path then catch_to_result (extract_text_body env path categories)
  else (PyResult.failure ("File not found"), [])

/-! ## Concrete environments used to evaluate the embedding -/

/-- A fully cooperative environment: every file exists, the text file holds
padded text, a key is configured, the upload succeeds, and the generation
call returns an empty JSON object, which is the only text the parser
accepts. -/
def env_main : Env :=
  { fileExists := fun _ => true
  , readTxt := fun _ => Except.ok ("  hello  ")
  , openBin := fun _ => Except.ok ()
  , apiKey := some ("sk-test")
  , uploadOutcome := fun _ => Except.ok ("file-123")
  , generateOutcome := Except.ok (some ("\x7b\x7d"))
  , loads := fun s => if s = ("\x7b\x7d") then some (Json.obj []) else none }

/-- env_main without a configured API key. -/
def env_nokey : Env := { env_main with apiKey := none }

/-- env_main with no file present. -/
def env_missing : Env := { env_main with fileExists := fun _ => false }

/-- env_main whose text file read raises. -/
def env_readerr : Env := { env_main with readTxt := fun _ => Except.error ("boom") }

/-- env_main whose generation call returns unparseable text with an embedded
brace pair that still fails to parse. -/
def env_badjson : Env :=
  { env_main with
    generateOutcome := Except.ok (some ("no \x7b json \x7d here")),
    loads := fun _ => none }

/-! ## Supporting lemmas -/

theorem find_char_some (l : List Char) (c : Char) (i : Nat)
    (h : find_char l c = some i) : l[i]? = some c := by
  induction l generalizing i with
  | nil => simp [find_char] at h
  | cons a as ih =>
    by_cases hac : a = c
    · rw [find_char, if_pos hac] at h
      obtain rfl : (0 : Nat) = i := Option.some.inj h
      simp [hac]
    · rw [find_char, if_neg hac] at h
      obtain ⟨j, hj, hji⟩ := Option.map_eq_some'.mp h
      subst hji
      simpa using ih j hj

theorem rfind_char_some (l : List Char) (c : Char) (i : Nat)
    (h : rfind_char l c = some i) : l[i]? = some c ∧ i < l.length := by
  unfold rfind_char at h
  obtain ⟨j, hj, hji⟩ := Option.map_eq_some'.mp h
  have hrev : l.reverse[j]? = some c := find_char_some _ _ _ hj
  have hjlen : j < l.length := by
    have := (List.getElem?_eq_some_iff.mp hrev).1
    simpa using this
  rw [List.getElem?_reverse hjlen] at hrev
  subst hji
  exact ⟨hrev, by omega⟩

theorem coerce_chars_none_left (t : List Char)
    (hf : find_char t lbrace = none) : coerce_chars t = t := by
  cases hr : rfind_char t rbrace with
  | none => unfold coerce_chars; rw [hf, hr]
  | some e => unfold coerce_chars; rw [hf, hr]

theorem coerce_chars_none_right (t : List Char)
    (hr : rfind_char t rbrace = none) : coerce_chars t = t := by
  cases hf : find_char t lbrace with
  | none => unfold coerce_chars; rw [hf, hr]
  | some s => unfold coerce_chars; rw [hf, hr]

theorem coerce_chars_some (t : List Char) (s e : Nat)
    (hf : find_char t lbrace = some s) (hr : rfind_char t rbrace = some e) :
    coerce_chars t = if s < e then (t.drop s).take (e - s + 1) else t := by
  unfold coerce_chars; rw [hf, hr]

theorem coerce_chars_fixed (t : List Char)
    (hlb : t[0]? = some lbrace)
    (hrb : t[t.length - 1]? = some rbrace)
    (hlen : 2 <= t.length) :
    coerce_chars t = t := by
  have hfind : find_char t lbrace = some 0 := by
    cases t with
    | nil => simp at hlb
    | cons a as =>
      have ha : a = lbrace := by simpa using hlb
      rw [find_char, if_pos ha]
  have hrevidx : t.reverse[0]? = some rbrace := by
    rw [List.getElem?_reverse (by omega : 0 < t.length)]
    simpa using hrb
  have hfindrev : find_char t.reverse rbrace = some 0 := by
    cases hrw : t.reverse with
    | nil => rw [hrw] at hrevidx; simp at hrevidx
    | cons b bs =>
      rw [hrw] at hrevidx
      have hb : b = rbrace := by simpa using hrevidx
      rw [find_char, if_pos hb]
  have hrfind : rfind_char t rbrace = some (t.length - 1) := by
    unfold rfind_char
    rw [hfindrev]
    simp
  rw [coerce_chars_some t 0 (t.length - 1) hfind hrfind,
      if_pos (by omega : 0 < t.length - 1)]
  have harith : t.length - 1 - 0 + 1 = t.length := by omega
  simp [harith]
  omega

theorem coerce_chars_idem (t : List Char) :
    coerce_chars (coerce_chars t) = coerce_chars t := by
  cases hf : find_char t lbrace with
  | none => rw [coerce_chars_none_left t hf, coerce_chars_none_left t hf]
  | some s =>
    cases hr : rfind_char t rbrace with
    | none => rw [coerce_chars_none_right t hr, coerce_chars_none_right t hr]
    | some e =>
      by_cases hlt : s < e
      · have heq : coerce_chars t = (t.drop s).take (e - s + 1) := by
          rw [coerce_chars_some t s e hf hr, if_pos hlt]
        have hts : t[s]? = some lbrace := find_char_some _ _ _ hf
        have hte : t[e]? = some rbrace ∧ e < t.length := rfind_char_some _ _ _ hr
        have hlen : ((t.drop s).take (e - s + 1)).length = e - s + 1 := by
          rw [List.length_take, List.length_drop]
          omega
        have h0 : ((t.drop s).take (e - s + 1))[0]? = some lbrace := by
          rw [List.getElem?_take_of_lt (by omega : 0 < e - s + 1),
              List.getElem?_drop]
          simpa using hts
        have hlast : ((t.drop s).take (e - s + 1))[(e - s + 1) - 1]? = some rbrace := by
          rw [List.getElem?_take_of_lt (by omega : (e - s + 1) - 1 < e - s + 1),
              List.getElem?_drop]
          have hse : s + ((e - s + 1) - 1) = e := by omega
          rw [hse]
          exact hte.1
        rw [heq]
        apply coerce_chars_fixed
        · exact h0
        · rw [hlen]; exact hlast
        · omega
      · have heq : coerce_chars t = t := by
          rw [coerce_chars_some t s e hf hr, if_neg hlt]
        rw [heq, heq]

theorem lookup_append_right (kvs : List (String × Json)) (k k2 : String) (v : Json)
    (h : k2 ≠ k) :
    List.lookup k2 (kvs ++ [(k, v)]) = List.lookup k2 kvs := by
  induction kvs with
  | nil =>
    have hb : (k2 == k) = false := beq_eq_false_iff_ne.mpr h
    simp [List.lookup_cons, hb]
  | cons a as ih =>
    obtain ⟨ka, va⟩ := a
    cases hk : (k2 == ka) with
    | true => simp [List.lookup_cons, hk]
    | false => simp [List.lookup_cons, hk, ih]

theorem lookup_append_self (kvs : List (String × Json)) (k : String) (v : Json)
    (h : List.lookup k kvs = none) :
    List.lookup k (kvs ++ [(k, v)]) = some v := by
  induction kvs with
  | nil => simp [List.lookup_cons]
  | cons a as ih =>
    obtain ⟨ka, va⟩ := a
    rw [List.lookup_cons] at h
    cases hk : (k == ka) with
    | true => rw [hk] at h; simp at h
    | false =>
      rw [hk] at h
      simp only [List.cons_append, List.lookup_cons, hk]
      exact ih h

/-! ## Claim theorems -/

/-- C9: for every file path that does not exist, extract_text returns the
file-not-found failure result and performs zero network calls. -/
theorem extract_text_file_not_found (env : Env) (path : String)
    (categories : List String) (h : env.fileExists path = false) :
    extract_text env path categories = (PyResult.failure ("File not found"), []) := by
  simp [extract_text, h]

/-- Witness for C9 at a concrete environment and path. -/
theorem extract_text_file_not_found_witness :
    extract_text env_missing ("bill.pdf") [] = (PyResult.failure ("File not found"), []) :=
  extract_text_file_not_found env_missing ("bill.pdf") [] rfl

/-- C8: for every PDF or image extraction attempted with no configured API
key, the call fails with the credential-missing message and the network
trace is empty, so neither the upload nor the generation request is issued
and no retry occurs. -/
theorem extract_text_no_api_key (env : Env) (path : String)
    (categories : List String)
    (hex : env.fileExists path = true)
    (hext : ext_of path ≠ (".txt"))
    (hopen : env.openBin path = Except.ok ())
    (hkey : env.apiKey = none) :
    extract_text env path categories =
      (PyResult.failure ("Error extracting text: OpenAI API key not configured"), []) := by
  simp [extract_text, hex, extract_text_body, hext, extract_bill_via_responses_api,
        upload_file, hopen, headers, hkey, catch_to_result]

/-- Witness for C8 at a concrete environment and a pdf path. -/
theorem extract_text_no_api_key_witness :
    extract_text env_nokey ("bill.pdf") [] =
      (PyResult.failure ("Error extracting text: OpenAI API key not configured"), []) :=
  extract_text_no_api_key env_nokey ("bill.pdf") [] rfl (by decide) rfl rfl

/-- C7: every exception escaping the dispatch body is caught at the
orchestrator boundary and converted into a failure result carrying the
message, never propagated. -/
theorem extract_text_catches_exceptions (env : Env) (path : String)
    (categories : List String) (e : PyErr) (tr : List NetCall)
    (hex : env.fileExists path = true)
    (hbody : extract_text_body env path categories = (Except.error e, tr)) :
    extract_text env path categories =
      (PyResult.failure (("Error extracting text: ") ++ e), tr) := by
  simp [extract_text, hex, hbody, catch_to_result]

/-- Witness for C7: a text file whose read raises is reported as a failure
result. -/
theorem extract_text_catches_exceptions_witness :
    extract_text env_readerr ("note.txt") [] =
      (PyResult.failure (("Error extracting text: ") ++ ("boom")), []) :=
  extract_text_catches_exceptions env_readerr ("note.txt") [] ("boom") [] rfl rfl

/-- C5: for every existing text file, extract_text succeeds with a bill
holding exactly one synthetic line item: the stripped content truncated to
2000 characters as description, null quantity and unit price, price zero,
the first supplied category or null, and an empty network trace. -/
theorem extract_text_txt_path (env : Env) (path : String)
    (categories : List String) (raw : String)
    (hex : env.fileExists path = true)
    (hext : ext_of path = (".txt"))
    (hread : env.readTxt path = Except.ok raw) :
    extract_text env path categories =
      (PyResult.success (Json.obj [
        ("bill_number", Json.null),
        ("items", Json.arr [Json.obj [
          ("description", Json.str (truncate (pyStrip raw) 2000)),
          ("quantity", Json.null),
          ("unit_price", Json.null),
          ("price", Json.num 0),
          ("category", match categories with | [] => Json.null | c :: _ => Json.str c)]]),
        ("source_filename", Json.str ("text-file"))]), []) := by
  simp [extract_text, hex, extract_text_body, hext, extract_from_txt, hread,
        catch_to_result, wrap_plain_text_as_bill]

/-- Witness for C5 at a concrete text file with padded content and one
category. -/
theorem extract_text_txt_path_witness :
    extract_text env_main ("bills/receipt.txt") [("food")] =
      (PyResult.success (Json.obj [
        ("bill_number", Json.null),
        ("items", Json.arr [Json.obj [
          ("description", Json.str ("hello")),
          ("quantity", Json.null),
          ("unit_price", Json.null),
          ("price", Json.num 0),
          ("category", Json.str ("food"))]]),
        ("source_filename", Json.str ("text-file"))]), []) :=
  extract_text_txt_path env_main ("bills/receipt.txt") [("food")] ("  hello  ") rfl rfl rfl

/-- C6: on the document path, when the response text parses to a JSON
object, the returned bill is that object with the source file base name
inserted under source_filename only when the key is absent: a present value
is kept, an absent one is appended, and every other key keeps its binding. -/
theorem doc_path_source_filename_frame (env : Env) (path : String)
    (categories : List String) (k fid t : String) (kvs : List (String × Json))
    (hex : env.fileExists path = true)
    (hext : ext_of path ≠ (".txt"))
    (hopen : env.openBin path = Except.ok ())
    (hkey : env.apiKey = some k)
    (hup : env.uploadOutcome path = Except.ok fid)
    (hgen : env.generateOutcome = Except.ok (some t))
    (hnorm : normalize_json_text env.loads t = some (Json.obj kvs)) :
    extract_text env path categories =
      (PyResult.success (Json.obj
        (setdefault kvs ("source_filename") (Json.str (basename path)))),
       [NetCall.upload path, NetCall.generate])
  ∧ (∀ v, List.lookup ("source_filename") kvs = some v →
      setdefault kvs ("source_filename") (Json.str (basename path)) = kvs)
  ∧ (List.lookup ("source_filename") kvs = none →
      setdefault kvs ("source_filename") (Json.str (basename path)) =
        kvs ++ [(("source_filename"), Json.str (basename path))])
  ∧ (∀ k2, k2 ≠ ("source_filename") →
      List.lookup k2 (setdefault kvs ("source_filename") (Json.str (basename path))) =
        List.lookup k2 kvs) := by
  refine ⟨?_, ?_, ?_, ?_⟩
  · simp [extract_text, hex, extract_text_body, hext, extract_bill_via_responses_api,
          upload_file, hopen, headers, hkey, hup, responses_post, hgen, hnorm,
          catch_to_result]
  · intro v hv
    simp [setdefault, hv]
  · intro hnone
    simp [setdefault, hnone]
  · intro k2 hk2
    unfold setdefault
    cases hlk : List.lookup ("source_filename") kvs with
    | some w => rfl
    | none => exact lookup_append_right kvs ("source_filename") k2 _ hk2

/-- Witness for C6: a jpg extraction whose parsed object is empty receives
the base name of the uploaded file. -/
theorem doc_path_source_filename_frame_witness :
    extract_text env_main ("receipt.jpg") [] =
      (PyResult.success (Json.obj [(("source_filename"), Json.str ("receipt.jpg"))]),
       [NetCall.upload ("receipt.jpg"), NetCall.generate]) :=
  (doc_path_source_filename_frame env_main ("receipt.jpg") [] ("sk-test")
    ("file-123") ("\x7b\x7d") [] rfl (by decide) rfl rfl rfl rfl rfl).1

/-- C2 counterexample: on the text path the returned source_filename is the
fixed string text-file, not the base name of the input path. -/
theorem txt_source_filename_counterexample :
    (extract_text env_main ("bills/receipt.txt") [("food")]).1 =
      PyResult.success (Json.obj [
        ("bill_number", Json.null),
        ("items", Json.arr [Json.obj [
          ("description", Json.str ("hello")),
          ("quantity", Json.null),
          ("unit_price", Json.null),
          ("price", Json.num 0),
          ("category", Json.str ("food"))]]),
        ("source_filename", Json.str ("text-file"))])
  ∧ basename ("bills/receipt.txt") = ("receipt.txt")
  ∧ (("text-file") : String) ≠ ("receipt.txt") :=
  ⟨rfl, rfl, by decide⟩

/-- C2 amended: on the document path, when the parsed object omits
source_filename, the returned bill appends the base name of the input path
under that key, and a lookup of the key in the result yields that base
name. -/
theorem doc_path_injects_basename_when_missing (env : Env) (path : String)
    (categories : List String) (k fid t : String) (kvs : List (String × Json))
    (hex : env.fileExists path = true)
    (hext : ext_of path ≠ (".txt"))
    (hopen : env.openBin path = Except.ok ())
    (hkey : env.apiKey = some k)
    (hup : env.uploadOutcome path = Except.ok fid)
    (hgen : env.generateOutcome = Except.ok (some t))
    (hnorm : normalize_json_text env.loads t = some (Json.obj kvs))
    (hmiss : List.lookup ("source_filename") kvs = none) :
    extract_text env path categories =
      (PyResult.success (Json.obj
        (kvs ++ [(("source_filename"), Json.str (basename path))])),
       [NetCall.upload path, NetCall.generate])
  ∧ List.lookup ("source_filename")
      (kvs ++ [(("source_filename"), Json.str (basename path))]) =
      some (Json.str (basename path)) := by
  constructor
  · have hset : setdefault kvs ("source_filename") (Json.str (basename path)) =
        kvs ++ [(("source_filename"), Json.str (basename path))] := by
      simp [setdefault, hmiss]
    simp [extract_text, hex, extract_text_body, hext, extract_bill_via_responses_api,
          upload_file, hopen, headers, hkey, hup, responses_post, hgen, hnorm,
          catch_to_result, hset]
  · exact lookup_append_self kvs ("source_filename") _ hmiss

/-- Witness for the amended C2 at a concrete jpg extraction. -/
theorem doc_path_injects_basename_when_missing_witness :
    extract_text env_main ("scans/receipt.jpg") [] =
      (PyResult.success (Json.obj [(("source_filename"), Json.str ("receipt.jpg"))]),
       [NetCall.upload ("scans/receipt.jpg"), NetCall.generate]) :=
  (doc_path_injects_basename_when_missing env_main ("scans/receipt.jpg") []
    ("sk-test") ("file-123") ("\x7b\x7d") [] rfl (by decide) rfl rfl rfl rfl rfl rfl).1

/-- C1 counterexample: an existing exe file is not rejected with an
unsupported-file-type failure; the extractor routes it to the document
pipeline, issues both network calls and here even returns success. -/
theorem unsupported_extension_counterexample :
    extract_text env_main ("malware.exe") [] =
      (PyResult.success (Json.obj [(("source_filename"), Json.str ("malware.exe"))]),
       [NetCall.upload ("malware.exe"), NetCall.generate])
  ∧ can_extract ("malware.exe") = false :=
  ⟨rfl, rfl⟩

/-- C1 amended: the supported-set gate is can_extract, which returns false
for every path whose lower-cased extension is outside the supported set;
extract_text itself performs no such check and sends every existing
non-text path to the document pipeline. -/
theorem unsupported_extension_gate (path : String)
    (hunsup : supported_extensions.contains (ext_of path) = false) :
    can_extract path = false
  ∧ (∀ env categories, env.fileExists path = true →
      extract_text env path categories =
        catch_to_result (extract_bill_via_responses_api env path categories)) := by
  constructor
  · exact hunsup
  · intro env categories hex
    have hext : ext_of path ≠ (".txt") := by
      intro h
      rw [h] at hunsup
      exact absurd hunsup (by decide)
    simp [extract_text, hex, extract_text_body, hext]

/-- Witness for the amended C1 at the exe path. -/
theorem unsupported_extension_gate_witness :
    can_extract ("malware.exe") = false ∧
    extract_text env_main ("malware.exe") [] =
      catch_to_result (extract_bill_via_responses_api env_main ("malware.exe") []) :=
  ⟨(unsupported_extension_gate ("malware.exe") rfl).1,
   (unsupported_extension_gate ("malware.exe") rfl).2 env_main [] rfl⟩

/-- C4: when the direct parse fails, the normalizer retries exactly once on
the substring from the first opening brace to the last closing brace
(inclusive, taken when the first brace comes strictly before the last),
succeeds exactly when that substring parses, and when the retry also fails
the document extraction surfaces a failure result instead of a bill. -/
theorem normalize_retry_on_trimmed (env : Env) (t : String) (s e : Nat)
    (hfail : env.loads t = none)
    (hs : find_char t.data lbrace = some s)
    (he : rfind_char t.data rbrace = some e)
    (hlt : s < e) :
    coerce_to_json t = String.mk ((t.data.drop s).take (e - s + 1))
  ∧ normalize_json_text env.loads t =
      env.loads (String.mk ((t.data.drop s).take (e - s + 1)))
  ∧ ((normalize_json_text env.loads t).isSome ↔
      (env.loads (String.mk ((t.data.drop s).take (e - s + 1)))).isSome)
  ∧ (∀ path categories k2 fid,
      env.fileExists path = true → ext_of path ≠ (".txt") →
      env.openBin path = Except.ok () → env.apiKey = some k2 →
      env.uploadOutcome path = Except.ok fid →
      env.generateOutcome = Except.ok (some t) →
      env.loads (coerce_to_json t) = none →
      extract_text env path categories =
        (PyResult.failure (("Error extracting text: ") ++ ("json.decoder.JSONDecodeError")),
         [NetCall.upload path, NetCall.generate])) := by
  have hcoerce : coerce_to_json t = String.mk ((t.data.drop s).take (e - s + 1)) := by
    unfold coerce_to_json
    rw [coerce_chars_some t.data s e hs he, if_pos hlt]
  have hnorm : normalize_json_text env.loads t =
      env.loads (String.mk ((t.data.drop s).take (e - s + 1))) := by
    rw [normalize_json_text, hfail, hcoerce]
  refine ⟨hcoerce, hnorm, by rw [hnorm], ?_⟩
  intro path categories k2 fid hex hext hopen hkey hup hgen hretry
  have hnone : normalize_json_text env.loads t = none := by
    rw [normalize_json_text, hfail, hretry]
  simp [extract_text, hex, extract_text_body, hext, extract_bill_via_responses_api,
        upload_file, hopen, headers, hkey, hup, responses_post, hgen, hnone,
        catch_to_result]

/-- Witness for C4: a brace pair wrapped in noise is retried on exactly the
trimmed substring. -/
theorem normalize_retry_on_trimmed_witness :
    normalize_json_text env_main.loads ("a\x7b\x7db") =
      env_main.loads (String.mk ((("a\x7b\x7db").data.drop 1).take 2)) :=
  (normalize_retry_on_trimmed env_main ("a\x7b\x7db") 1 2 rfl rfl rfl (by decide)).2.1

/-- C10: the brace-trimming repair step is idempotent, and it returns its
input unchanged when there is no opening brace, no closing brace, or the
last closing brace does not come after the first opening brace. -/
theorem coerce_to_json_idempotent (t : String) :
    coerce_to_json (coerce_to_json t) = coerce_to_json t
  ∧ ((find_char t.data lbrace = none ∨ rfind_char t.data rbrace = none ∨
      (∀ s e, find_char t.data lbrace = some s →
        rfind_char t.data rbrace = some e → e ≤ s)) →
      coerce_to_json t = t) := by
  obtain ⟨d⟩ := t
  constructor
  · exact congrArg String.mk (coerce_chars_idem d)
  · intro h
    suffices hcc : coerce_chars d = d by
      show String.mk (coerce_chars d) = String.mk d
      rw [hcc]
    rcases h with hf | hr | hle
    · exact coerce_chars_none_left d hf
    · exact coerce_chars_none_right d hr
    · cases hf2 : find_char d lbrace with
      | none => exact coerce_chars_none_left d hf2
      | some s =>
        cases hr2 : rfind_char d rbrace with
        | none => exact coerce_chars_none_right d hr2
        | some e =>
          rw [coerce_chars_some d s e hf2 hr2,
              if_neg (by have := hle s e hf2 hr2; omega)]

/-- Witness for C10 on a brace-free string: idempotence and the unchanged
case both evaluate. -/
theorem coerce_to_json_idempotent_witness :
    coerce_to_json (coerce_to_json ("abc")) = coerce_to_json ("abc")
  ∧ coerce_to_json ("abc") = ("abc") :=
  ⟨(coerce_to_json_idempotent ("abc")).1,
   (coerce_to_json_idempotent ("abc")).2 (Or.inl rfl)⟩

/-- C3: for every category list, the generated schema disallows additional
properties on both the Bill and the LineItem objects, each object requires
exactly its declared property keys, and the category field accepts exactly
null or a member of the category list when it is non-empty, and null or any
string when it is empty. -/
theorem schema_strict_required_and_category (categories : List String) :
    List.lookup ("additionalProperties") (obj_fields (bill_schema categories)) =
      some (Json.bool false)
  ∧ List.lookup ("additionalProperties") (obj_fields (line_item_schema categories)) =
      some (Json.bool false)
  ∧ required_names (bill_schema categories) = some (top_required categories)
  ∧ property_names (bill_schema categories) = some (top_required categories)
  ∧ required_names (line_item_schema categories) = some (item_required categories)
  ∧ property_names (line_item_schema categories) = some (item_required categories)
  ∧ List.lookup ("category") (item_properties categories) = some (category_prop categories)
  ∧ ∀ v, scalar_accepts (category_prop categories) v = true ↔
      (v = Json.null ∨ ∃ c, v = Json.str c ∧ (categories = [] ∨ c ∈ categories)) := by
  refine ⟨rfl, rfl, rfl, rfl, rfl, rfl, rfl, ?_⟩
  intro v
  cases categories with
  | nil =>
    cases v <;>
      simp [category_prop, scalar_accepts, scalar_accepts_basic,
            typeFieldMatches, typeNameMatches, enum_allows, List.lookup_cons]
  | cons c cs =>
    cases v <;>
      simp [category_prop, scalar_accepts, scalar_accepts_basic,
            typeFieldMatches, typeNameMatches, enum_allows, List.lookup_cons, jeqb] <;>
      exact or_congr eq_comm Iff.rfl

/-- Witness for C3: with two categories, the category field accepts a
member of the list. -/
theorem schema_strict_required_and_category_witness :
    scalar_accepts (category_prop [("food"), ("other")]) (Json.str ("food")) = true :=
  ((schema_strict_required_and_category [("food"), ("other")]).2.2.2.2.2.2.2
    (Json.str ("food"))).mpr (Or.inr ⟨("food"), rfl, Or.inr (by simp)⟩)
